import Mathlib

set_option maxHeartbeats 1000000

namespace IdentityShield

/-
Shallow embedding of the Real-Time Enrollment Session Controller of the
identityshield frontend.

Part 1 embeds frontend/src/hooks/useMediaStream.js: the capture buffer
(`chunksRef`), the 1 s sub-unit callback (`ondataavailable`), the 10 s flush
interval callback, `processAndSendChunk` and `stopRecording`.  Sub-units are
represented by their byte sizes; a produced chunk is represented by its total
byte size (the blob concatenates the buffered sub-units).
-/

inductive MediaEvent where
  | data (size : Nat)
  | flush
deriving DecidableEq

structure MediaState where
  buffer : List Nat
  chunks : List Nat
deriving DecidableEq

def initMedia : MediaState := ⟨[], []⟩

/-- `mediaRecorder.ondataavailable`: pushes the event data onto `chunksRef`
only when `event.data.size > 0` (useMediaStream.js lines 76-80). -/
def onDataAvailable (s : MediaState) (size : Nat) : MediaState :=
  if 0 < size then { s with buffer := s.buffer ++ [size] } else s

/-- `processAndSendChunk` (useMediaStream.js lines 100-115): returns at once on
an empty buffer; otherwise concatenates the buffered sub-units into one blob,
clears the buffer, and hands the encoded chunk to `onChunkReady`. -/
def processAndSendChunk (s : MediaState) : MediaState :=
  if s.buffer = [] then s
  else { buffer := [], chunks := s.chunks ++ [s.buffer.sum] }

/-- The `chunkIntervalRef` callback (useMediaStream.js lines 87-91): flushes
only when the buffer is non-empty. -/
def chunkIntervalTick (s : MediaState) : MediaState :=
  if s.buffer = [] then s else processAndSendChunk s

def mediaStep (s : MediaState) (e : MediaEvent) : MediaState :=
  match e with
  | .data n => onDataAvailable s n
  | .flush => chunkIntervalTick s

def runMedia (s : MediaState) (evs : List MediaEvent) : MediaState :=
  evs.foldl mediaStep s

/-- The synchronous body of `stopRecording` (useMediaStream.js lines 118-134),
restricted to its effect on the buffer and the produced chunks: clears the
flush interval, calls `mediaRecorder.stop()`, and performs one final flush when
the buffer is non-empty at that moment.  The final `dataavailable` event that
`mediaRecorder.stop()` queues is delivered only after this body has returned;
the full stop boundary including that event is `stopRecordingAsync`. -/
def stopRecordingMedia (s : MediaState) : MediaState :=
  if s.buffer = [] then s else processAndSendChunk s

/-- The full stop boundary of `stopRecording` under browser MediaRecorder
semantics: `clearInterval` stops the flush timer, `mediaRecorder.stop()`
(line 125) queues one final `dataavailable` event carrying the trailing slice
captured since the last 1 s timeslice, the synchronous final flush (lines
129-131) runs on the buffer as it is at that moment, and the queued event is
then delivered in a later task, appending the tail to a buffer that no timer
or flush will ever drain again. -/
def stopRecordingAsync (s : MediaState) (tail : Nat) : MediaState :=
  onDataAvailable (stopRecordingMedia s) tail

/-- Total bytes captured during a session: the sum of the sizes delivered by
the 1 s sub-unit callbacks. -/
def capturedBytes (evs : List MediaEvent) : Nat :=
  (evs.map (fun e => match e with | .data n => n | .flush => 0)).sum

/-
Part 2 embeds frontend/src/components/VideoChat.jsx: the session state machine
(topic selection, permissions/start, active conversation, completion, cancel),
the voice I/O flags, the timers and the chunk-upload counter.  Each event is
one atomic handler execution of the single-threaded browser event loop; an
awaited service call is split into its synchronous part and a separate
`...Resolve` event.
-/

inductive Role where
  | user
  | assistant
deriving DecidableEq

structure Turn where
  role : Role
  content : String
deriving DecidableEq

inductive StepPhase where
  | topic
  | permissions
  | conversation
  | terminated
deriving DecidableEq

inductive ChunkOutcome where
  | accepted
  | rejected
  | netError
deriving DecidableEq

structure ChatState where
  step : StepPhase
  sessionId : Option Nat
  userId : Option Nat
  messages : List Turn
  inputText : String
  isTyping : Bool
  shouldEnd : Bool
  isCompleting : Bool
  isStarting : Bool
  gumPending : Bool
  startReqPending : Bool
  pendingMicStart : Bool
  audioEnabled : Bool
  trackedPlaying : Bool
  orphaned : Nat
  isSpeaking : Bool
  isRecordingMic : Bool
  isTranscribing : Bool
  micTracksActive : Bool
  pendingMicStop : Bool
  pendingAutoSubmit : Bool
  elapsedTime : Nat
  timerActive : Bool
  mediaRecording : Bool
  chunkIntervalActive : Bool
  streamTracksActive : Bool
  chunksProcessed : Nat
  uploadAttempts : Nat
  requestsIssued : Nat
  outstanding : Nat
  errorsSurfaced : Nat
  completeInFlight : Bool
  handedOffUser : Option Nat
deriving DecidableEq

def initChat : ChatState where
  step := .topic
  sessionId := none
  userId := none
  messages := []
  inputText := ""
  isTyping := false
  shouldEnd := false
  isCompleting := false
  isStarting := false
  gumPending := false
  startReqPending := false
  pendingMicStart := false
  audioEnabled := true
  trackedPlaying := false
  orphaned := 0
  isSpeaking := false
  isRecordingMic := false
  isTranscribing := false
  micTracksActive := false
  pendingMicStop := false
  pendingAutoSubmit := false
  elapsedTime := 0
  timerActive := false
  mediaRecording := false
  chunkIntervalActive := false
  streamTracksActive := false
  chunksProcessed := 0
  uploadAttempts := 0
  requestsIssued := 0
  outstanding := 0
  errorsSurfaced := 0
  completeInFlight := false
  handedOffUser := none

/-- `stopAudio` (VideoChat.jsx lines 143-149): pauses the tracked clip and
clears `isSpeaking`. -/
def stopAudioFn (s : ChatState) : ChatState :=
  { s with trackedPlaying := false, isSpeaking := false }

/-- `playAudio` (VideoChat.jsx lines 118-140): refuses when audio is disabled
or no payload is given; otherwise sets `isSpeaking`, overwrites `audioRef` with
the new clip and starts it.  The previously tracked clip is NOT paused here: if
it were still playing it would keep playing untracked, which the model records
in `orphaned`. -/
def playAudioFn (s : ChatState) (hasAudio : Bool) : ChatState :=
  if s.audioEnabled && hasAudio then
    { s with
      orphaned := s.orphaned + (if s.trackedPlaying then 1 else 0),
      trackedPlaying := true,
      isSpeaking := true }
  else s

/-- Number of clips currently playing: the tracked one plus any orphaned
(overwritten but never stopped) ones. -/
def activeClips (s : ChatState) : Nat :=
  s.orphaned + (if s.trackedPlaying then 1 else 0)

/-- `stopMicRecording` (VideoChat.jsx lines 225-230): stops the mic recorder
only when one is recording; the recorder's `onstop` handler (which stops the
mic tracks and may start a transcription) runs later, modelled by
`pendingMicStop`. -/
def stopMicRecordingFn (s : ChatState) : ChatState :=
  if s.isRecordingMic then
    { s with isRecordingMic := false, pendingMicStop := true }
  else s

/-- `stopRecording` of the media hook as seen from VideoChat: clears the flush
interval and stops the recorder (the buffer/chunk accounting lives in the
`MediaState` model above). -/
def stopRecordingFn (s : ChatState) : ChatState :=
  { s with chunkIntervalActive := false, mediaRecording := false }

/-- `stopStream` (useMediaStream.js lines 137-146): `stopRecording` followed by
stopping every track of the acquired stream. -/
def stopStreamFn (s : ChatState) : ChatState :=
  { stopRecordingFn s with streamTracksActive := false }

def clearTimerFn (s : ChatState) : ChatState :=
  { s with timerActive := false }

/-- Model of the JavaScript string method trim(): strip leading and trailing
whitespace (executable over the character list so that concrete runs reduce). -/
def trimStr (s : String) : String :=
  ⟨((s.data.dropWhile Char.isWhitespace).reverse.dropWhile Char.isWhitespace).reverse⟩

/-- The fixed fallback assistant turn appended when `sendMessage` fails
(VideoChat.jsx lines 341-347). -/
def fallbackText : String := "I'm having trouble responding. Let's continue our chat!"

/-- `handleSendMessage` (VideoChat.jsx lines 307-323), synchronous part: guard
on empty trimmed input, missing session or an in-flight send; then clear the
input, stop any playing audio, append the user turn optimistically, set
`isTyping` and issue the `sendMessage` request. -/
def handleSendMessageFn (s : ChatState) : ChatState :=
  if trimStr s.inputText = "" ∨ s.sessionId = none ∨ s.isTyping then s
  else
    { stopAudioFn s with
      inputText := "",
      messages := s.messages ++ [⟨.user, trimStr s.inputText⟩],
      isTyping := true,
      requestsIssued := s.requestsIssued + 1,
      outstanding := s.outstanding + 1 }

/-- `handleCancel` (VideoChat.jsx lines 376-385): stopRecording, stopStream,
stopAudio, stopMicRecording, clear the elapsed timer, then `onCancel()`. -/
def handleCancelFn (s : ChatState) : ChatState :=
  clearTimerFn (stopMicRecordingFn (stopAudioFn (stopStreamFn (stopRecordingFn s))))

/-- The unmount cleanup effects that run when the host unmounts VideoChat after
`onCancel`/`onComplete`: clear the elapsed timer and stop audio (VideoChat.jsx
lines 388-395), stop the mic recorder and mic tracks (lines 233-242), clear the
flush interval and stop the stream tracks (useMediaStream.js lines 156-165). -/
def unmountCleanupFn (s : ChatState) : ChatState :=
  { stopAudioFn s with
    chunkIntervalActive := false,
    streamTracksActive := false,
    micTracksActive := false,
    timerActive := false }

/-- The render condition of the Complete Enrollment button
(VideoChat.jsx line 722): `shouldEnd || elapsedTime >= 60`. -/
def completeShown (s : ChatState) : Bool :=
  s.shouldEnd || decide (60 ≤ s.elapsedTime)

inductive ChatEvent where
  /-- `handleTopicContinue`: move from topic selection to the permissions
  screen. -/
  | continueTopic
  /-- `handleStart`, synchronous part (VideoChat.jsx lines 265-269): the Start
  button (disabled while `isStarting`) sets `isStarting` and awaits
  `requestPermissions()`, leaving the camera+mic acquisition in flight. -/
  | startClick
  /-- `getUserMedia` inside `requestPermissions` resolving (useMediaStream.js
  lines 20-40): the device tracks are acquired — even if the component was
  unmounted meanwhile, in which case the discarded `setStream` means no cleanup
  will ever stop them — and `handleStart` continues by awaiting
  `startEnrollment(topic)`. -/
  | gumGranted
  /-- `getUserMedia` rejecting: `requestPermissions` returns false and
  `handleStart` resets `isStarting` and returns. -/
  | gumDenied
  /-- The awaited `startEnrollment` call settling (VideoChat.jsx lines
  277-303).  On success while the component is still mounted: seed the
  transcript with the opening assistant turn, optionally play the opening
  audio, start recording, schedule the elapsed-time interval, move to the
  conversation step.  On success after cancel unmounted the component: the
  state updates are discarded but the continuation still runs — the opening
  audio still plays, `startRecording` fails on the dead or detached stream,
  and `timerRef.current = setInterval(...)` (lines 293-295) still schedules
  the never-cleared elapsed-time interval.  On failure: alert and reset
  `isStarting`. -/
  | startResolve (ok : Bool) (hasAudio : Bool)
  /-- Typing in the chat input (enabled only when not typing, completing,
  speaking, recording or transcribing). -/
  | setInput (t : String)
  /-- Submitting the form through the send button or Enter (both disabled
  while typing, completing, speaking, mic-recording or transcribing, or when
  the trimmed input is empty). -/
  | submit
  /-- The auto-send timeout scheduled after a successful transcription firing:
  it looks up the chat form (present only while the conversation step is
  rendered) and calls `form.requestSubmit()`, which bypasses the disabled
  submit button and runs `handleSendMessage` with only its own internal
  guard. -/
  | autoSubmit
  /-- The awaited `sendMessage` call settling: `some (text, hasAudio,
  shouldEnd)` on success, `none` on failure. -/
  | sendResolve (resp : Option (String × Bool × Bool))
  /-- The tracked clip reaching its natural end or erroring
  (`audio.onended` / `audio.onerror`). -/
  | audioEnded
  /-- The AI-voice toggle button. -/
  | toggleAudio
  /-- `startMicRecording`, synchronous part (VideoChat.jsx lines 152-158):
  mouse/touch down on the enabled mic button passes the guard, stops any
  playing audio and awaits `getUserMedia({audio: true})`, leaving the mic
  acquisition in flight. -/
  | micDown
  /-- The mic `getUserMedia` resolving (VideoChat.jsx lines 158-218): the mic
  tracks go live, the recorder starts and `setIsRecordingMic(true)` runs —
  with no recheck of the guard after the await. -/
  | micGranted
  /-- The mic `getUserMedia` rejecting: the catch only logs. -/
  | micDenied
  /-- `stopMicRecording` (mouse/touch up or leave). -/
  | micUp
  /-- The mic recorder's `onstop` handler: stops the mic tracks and, when any
  audio accumulated, starts a transcription. -/
  | micStop (hasAudio : Bool)
  /-- The awaited `transcribeAudio` call settling: `some t` when it succeeds
  with non-empty text `t`, else `none`. -/
  | transcribeResolve (text : Option String)
  /-- The 1 s elapsed-time interval firing. -/
  | tick
  /-- `handleChunkReady` completing with the given upload outcome. -/
  | chunkReady (o : ChunkOutcome)
  /-- `handleComplete`, synchronous part (button rendered only when
  `completeShown`, disabled while completing). -/
  | completeClick
  /-- The awaited `completeEnrollment` call settling. -/
  | completeResolve (ok : Bool)
  /-- Cancelling enrollment: in the conversation step `handleCancel` then the
  unmount cleanup triggered by `onCancel`; in the earlier steps the cancel
  buttons call `onCancel` directly and only the unmount cleanup runs. -/
  | cancel
deriving DecidableEq

def chatStep (s : ChatState) (e : ChatEvent) : ChatState :=
  match e with
  | .continueTopic =>
      if s.step = .topic then { s with step := .permissions } else s
  | .startClick =>
      if s.step = .permissions ∧ s.isStarting = false then
        { s with isStarting := true, gumPending := true }
      else s
  | .gumGranted =>
      if s.gumPending then
        { s with gumPending := false, streamTracksActive := true, startReqPending := true }
      else s
  | .gumDenied =>
      if s.gumPending then
        { s with gumPending := false, isStarting := false }
      else s
  | .startResolve ok hasAudio =>
      if s.startReqPending then
        if ok then
          if s.step = .terminated then
            { playAudioFn s hasAudio with
              startReqPending := false,
              isStarting := false,
              timerActive := true }
          else
            let s1 := { s with
              sessionId := some 1,
              userId := some 1,
              messages := [⟨.assistant, "opening"⟩] }
            let s2 := playAudioFn s1 hasAudio
            { s2 with
              mediaRecording := true,
              chunkIntervalActive := true,
              timerActive := true,
              step := .conversation,
              startReqPending := false,
              isStarting := false }
        else
          { s with
            errorsSurfaced := s.errorsSurfaced + 1,
            startReqPending := false,
            isStarting := false }
      else s
  | .setInput t =>
      if s.step = .conversation ∧ s.isTyping = false ∧ s.isCompleting = false ∧
         s.isSpeaking = false ∧ s.isRecordingMic = false ∧ s.isTranscribing = false then
        { s with inputText := t }
      else s
  | .submit =>
      if s.step = .conversation ∧ s.isTyping = false ∧ s.isCompleting = false ∧
         s.isSpeaking = false ∧ s.isRecordingMic = false ∧ s.isTranscribing = false ∧
         ¬trimStr s.inputText = "" then
        handleSendMessageFn s
      else s
  | .autoSubmit =>
      if s.pendingAutoSubmit ∧ s.step = .conversation then
        handleSendMessageFn { s with pendingAutoSubmit := false }
      else s
  | .sendResolve resp =>
      if s.isTyping then
        match resp with
        | some (text, hasAudio, se) =>
            let s1 := { s with messages := s.messages ++ [⟨.assistant, text⟩] }
            let s2 := playAudioFn s1 hasAudio
            let s3 := if se then { s2 with shouldEnd := true } else s2
            { s3 with isTyping := false, outstanding := s3.outstanding - 1 }
        | none =>
            { s with
              messages := s.messages ++ [⟨.assistant, fallbackText⟩],
              isTyping := false,
              outstanding := s.outstanding - 1 }
      else s
  | .audioEnded =>
      if s.trackedPlaying then { s with trackedPlaying := false, isSpeaking := false }
      else s
  | .toggleAudio =>
      if s.step = .conversation then
        if s.audioEnabled then { stopAudioFn s with audioEnabled := false }
        else { s with audioEnabled := true }
      else s
  | .micDown =>
      if s.step = .conversation ∧ s.isTyping = false ∧ s.isCompleting = false ∧
         s.isSpeaking = false ∧ s.isTranscribing = false ∧ s.isRecordingMic = false then
        { stopAudioFn s with pendingMicStart := true }
      else s
  | .micGranted =>
      if s.pendingMicStart then
        if s.step = .terminated then
          { s with pendingMicStart := false, micTracksActive := true }
        else
          { s with pendingMicStart := false, micTracksActive := true, isRecordingMic := true }
      else s
  | .micDenied =>
      if s.pendingMicStart then { s with pendingMicStart := false } else s
  | .micUp => stopMicRecordingFn s
  | .micStop hasAudio =>
      if s.pendingMicStop then
        let s1 := { s with pendingMicStop := false, micTracksActive := false }
        if hasAudio then { s1 with isTranscribing := true } else s1
      else s
  | .transcribeResolve text =>
      if s.isTranscribing then
        match text with
        | some t =>
            { s with inputText := t, pendingAutoSubmit := true, isTranscribing := false }
        | none => { s with isTranscribing := false }
      else s
  | .tick =>
      if s.timerActive then { s with elapsedTime := s.elapsedTime + 1 } else s
  | .chunkReady o =>
      if s.sessionId.isSome then
        let s1 := { s with uploadAttempts := s.uploadAttempts + 1 }
        if o = .accepted then { s1 with chunksProcessed := s1.chunksProcessed + 1 }
        else s1
      else s
  | .completeClick =>
      if s.step = .conversation ∧ completeShown s = true ∧ s.isCompleting = false then
        let s1 := stopMicRecordingFn (stopAudioFn (stopRecordingFn { s with isCompleting := true }))
        { clearTimerFn s1 with completeInFlight := true }
      else s
  | .completeResolve ok =>
      if s.completeInFlight then
        if ok then
          { stopStreamFn s with
            step := .terminated,
            handedOffUser := s.userId,
            completeInFlight := false }
        else
          { s with
            errorsSurfaced := s.errorsSurfaced + 1,
            isCompleting := false,
            completeInFlight := false }
      else s
  | .cancel =>
      if s.step = .terminated then s
      else
        { unmountCleanupFn (if s.step = .conversation then handleCancelFn s else s) with
          step := .terminated }

def runChat (s : ChatState) (evs : List ChatEvent) : ChatState :=
  evs.foldl chatStep s

def ChatReachable (s : ChatState) : Prop :=
  ∃ evs : List ChatEvent, runChat initChat evs = s

/-- Number of the three session timers still scheduled: the recorder's 1 s
sub-unit timeslice, the 10 s flush interval, the 1 s elapsed-time interval. -/
def timersScheduled (s : ChatState) : Nat :=
  (if s.mediaRecording then 1 else 0) +
  (if s.chunkIntervalActive then 1 else 0) +
  (if s.timerActive then 1 else 0)

/-- Number of device-track groups still active: the shared camera+mic stream
and the push-to-talk mic stream. -/
def activeTracks (s : ChatState) : Nat :=
  (if s.streamTracksActive then 1 else 0) +
  (if s.micTracksActive then 1 else 0)

/-- All sub-unit sizes held in the buffer and all produced chunk sizes are
positive (`ondataavailable` drops empty data events). -/
def MediaPos (s : MediaState) : Prop :=
  (∀ x ∈ s.buffer, 0 < x) ∧ (∀ c ∈ s.chunks, 0 < c)

/-- Inductive invariant of the session machine: no orphaned audio clip ever
plays, `isSpeaking` tracks the active clip, exactly one `sendMessage` request
is outstanding while `isTyping`, no clip plays while a send is in flight,
before the conversation step no session, recorder or timer exists, while a
start (device acquisition or `startEnrollment`) is in flight no session, send
or playback exists, the two start phases are mutually exclusive, and a start
phase can only be in flight while `isStarting`. -/
def ChatInv (s : ChatState) : Prop :=
  s.orphaned = 0 ∧
  s.isSpeaking = s.trackedPlaying ∧
  s.outstanding = (if s.isTyping then 1 else 0) ∧
  (s.isTyping = true → s.trackedPlaying = false) ∧
  ((s.step = .topic ∨ s.step = .permissions) →
     s.isTyping = false ∧ s.trackedPlaying = false ∧ s.mediaRecording = false ∧
     s.chunkIntervalActive = false ∧ s.timerActive = false ∧ s.sessionId = none) ∧
  ((s.gumPending = true ∨ s.startReqPending = true) →
     s.sessionId = none ∧ s.isTyping = false ∧ s.trackedPlaying = false) ∧
  (¬(s.gumPending = true ∧ s.startReqPending = true)) ∧
  (s.isStarting = false → s.gumPending = false ∧ s.startReqPending = false)

/- ### Conservation of captured bytes across flush boundaries -/

theorem onDataAvailable_sum (s : MediaState) (n : Nat) :
    (onDataAvailable s n).chunks.sum + (onDataAvailable s n).buffer.sum
      = s.chunks.sum + s.buffer.sum + n := by
  simp only [onDataAvailable]
  split_ifs with h
  · simp [List.sum_append]; omega
  · omega

theorem chunkIntervalTick_sum (s : MediaState) :
    (chunkIntervalTick s).chunks.sum + (chunkIntervalTick s).buffer.sum
      = s.chunks.sum + s.buffer.sum := by
  simp only [chunkIntervalTick, processAndSendChunk]
  split_ifs <;> simp [List.sum_append]

theorem runMedia_sum (evs : List MediaEvent) (s : MediaState) :
    (runMedia s evs).chunks.sum + (runMedia s evs).buffer.sum
      = s.chunks.sum + s.buffer.sum + capturedBytes evs := by
  induction evs generalizing s with
  | nil => simp [runMedia, capturedBytes]
  | cons e evs ih =>
      have hstep : runMedia s (e :: evs) = runMedia (mediaStep s e) evs := rfl
      rw [hstep, ih]
      cases e with
      | data n =>
          have := onDataAvailable_sum s n
          simp only [mediaStep, capturedBytes, List.map_cons, List.sum_cons] at *
          omega
      | flush =>
          have := chunkIntervalTick_sum s
          simp only [mediaStep, capturedBytes, List.map_cons, List.sum_cons] at *
          omega

theorem stopRecordingMedia_sum (s : MediaState) :
    (stopRecordingMedia s).chunks.sum = s.chunks.sum + s.buffer.sum := by
  simp only [stopRecordingMedia, processAndSendChunk]
  split_ifs <;> simp_all [List.sum_append]

theorem stopRecordingMedia_buffer (s : MediaState) : (stopRecordingMedia s).buffer = [] := by
  simp only [stopRecordingMedia, processAndSendChunk]
  split_ifs <;> simp_all

/-- C1 (code bug): the periodic flush boundaries lose nothing — the chunks
produced by the time `stopRecording`'s synchronous final flush has run hold
exactly the bytes delivered before stop — but `mediaRecorder.stop()` queues
the recorder's final `dataavailable`, which is delivered only after that
flush, so the trailing slice is appended to a buffer that is never flushed
again: across every session trace, the chunk total equals only the pre-stop
bytes while the `tail` bytes of the trailing slice sit in the abandoned
buffer, falsifying "no bytes appended to the media buffer are lost at any
chunk boundary, including the stop boundary" whenever the trailing slice is
non-empty; concretely, capturing 3 bytes, flushing, capturing 2 bytes and
stopping with a 2-byte trailing slice yields chunks totalling 5 of the 7
captured bytes. -/
theorem capture_stop_boundary_loss (evs : List MediaEvent) (tail : Nat) :
    (stopRecordingAsync (runMedia initMedia evs) tail).chunks.sum = capturedBytes evs ∧
    (stopRecordingAsync (runMedia initMedia evs) tail).buffer.sum = tail ∧
    (stopRecordingAsync (runMedia initMedia [.data 3, .flush, .data 2]) 2).chunks.sum = 5 ∧
    capturedBytes [.data 3, .flush, .data 2] + 2 = 7 := by
  refine ⟨?_, ?_, by decide, by decide⟩
  · have h := runMedia_sum evs initMedia
    have hchunks : (stopRecordingAsync (runMedia initMedia evs) tail).chunks
        = (stopRecordingMedia (runMedia initMedia evs)).chunks := by
      simp only [stopRecordingAsync, onDataAvailable]
      split_ifs <;> rfl
    rw [hchunks, stopRecordingMedia_sum]
    simpa [initMedia] using h
  · simp only [stopRecordingAsync, onDataAvailable]
    split_ifs with h
    · simp [stopRecordingMedia_buffer]
    · simp [stopRecordingMedia_buffer]
      omega

/- ### Chunk positivity -/

theorem mediaPos_step (s : MediaState) (e : MediaEvent) (h : MediaPos s) :
    MediaPos (mediaStep s e) := by
  obtain ⟨hb, hc⟩ := h
  cases e with
  | data n =>
      simp only [mediaStep, onDataAvailable]
      split_ifs with hn
      · refine ⟨?_, hc⟩
        intro x hx
        simp at hx
        rcases hx with hx | rfl
        · exact hb x hx
        · exact hn
      · exact ⟨hb, hc⟩
  | flush =>
      simp only [mediaStep, chunkIntervalTick, processAndSendChunk]
      split_ifs with h1
      · exact ⟨hb, hc⟩
      · refine ⟨by simp, fun c hmem => ?_⟩
        simp at hmem
        rcases hmem with hmem | rfl
        · exact hc c hmem
        · exact List.sum_pos s.buffer hb h1

theorem mediaPos_run (evs : List MediaEvent) (s : MediaState) (h : MediaPos s) :
    MediaPos (runMedia s evs) := by
  induction evs generalizing s with
  | nil => exact h
  | cons e evs ih => exact ih _ (mediaPos_step s e h)

/-- C10: a flush whose media buffer is empty produces no chunk — both the
periodic 10 s flush callback and the final flush performed by `stopRecording`
leave the state untouched on an empty buffer — and every chunk produced during
a session is non-empty, so no zero-byte chunk is ever handed to the upload
path. -/
theorem empty_flush_no_chunk (s : MediaState) (evs : List MediaEvent)
    (hempty : s.buffer = []) :
    chunkIntervalTick s = s ∧ stopRecordingMedia s = s ∧
    ∀ c ∈ (stopRecordingMedia (runMedia initMedia evs)).chunks, 0 < c := by
  refine ⟨by simp [chunkIntervalTick, hempty], by simp [stopRecordingMedia, hempty], ?_⟩
  have h := mediaPos_run evs initMedia ⟨by simp [initMedia], by simp [initMedia]⟩
  obtain ⟨hb, hc⟩ := h
  intro c hmem
  simp only [stopRecordingMedia, processAndSendChunk] at hmem
  split_ifs at hmem with h1
  · exact hc c hmem
  · simp at hmem
    rcases hmem with hmem | rfl
    · exact hc c hmem
    · exact List.sum_pos _ hb h1

theorem empty_flush_no_chunk_witness :
    (⟨[], [7]⟩ : MediaState).buffer = [] ∧
    chunkIntervalTick ⟨[], [7]⟩ = ⟨[], [7]⟩ ∧
    stopRecordingMedia ⟨[], [7]⟩ = ⟨[], [7]⟩ ∧
    ∀ c ∈ (stopRecordingMedia (runMedia initMedia [.data 3, .flush, .data 0, .data 2])).chunks,
      0 < c := by
  have h := empty_flush_no_chunk ⟨[], [7]⟩ [.data 3, .flush, .data 0, .data 2] rfl
  exact ⟨rfl, h.1, h.2.1, h.2.2⟩

/- ### Session machine invariant lemmas -/

theorem chatInv_init : ChatInv initChat := by
  simp [ChatInv, initChat]

set_option maxHeartbeats 4000000 in
theorem chatInv_step (s : ChatState) (e : ChatEvent) (h : ChatInv s) :
    ChatInv (chatStep s e) := by
  obtain ⟨h1, h2, h3, h4, h5, h6, h7, h8⟩ := h
  cases e with
  | sendResolve resp =>
      rcases resp with _ | ⟨text, hasAudio, se⟩ <;>
        simp only [chatStep, ChatInv, playAudioFn] <;>
        split_ifs <;> simp_all
  | transcribeResolve text =>
      rcases text with _ | t <;>
        simp only [chatStep, ChatInv] <;>
        split_ifs <;> simp_all
  | startResolve ok hasAudio =>
      simp only [chatStep, ChatInv, playAudioFn]
      split_ifs <;> simp_all
  | micGranted =>
      simp only [chatStep, ChatInv]
      split_ifs <;> simp_all
  | _ =>
      simp only [chatStep, ChatInv, handleSendMessageFn, playAudioFn, stopAudioFn,
        stopMicRecordingFn, stopRecordingFn, stopStreamFn, clearTimerFn,
        handleCancelFn, unmountCleanupFn, completeShown] <;>
      split_ifs <;> simp_all

theorem chatInv_run (evs : List ChatEvent) (s : ChatState) (h : ChatInv s) :
    ChatInv (runChat s evs) := by
  induction evs generalizing s with
  | nil => exact h
  | cons e evs ih => exact ih _ (chatInv_step s e h)

theorem chatInv_reachable (s : ChatState) (h : ChatReachable s) : ChatInv s := by
  obtain ⟨evs, rfl⟩ := h
  exact chatInv_run evs initChat chatInv_init

/- ### C2: mic capture vs. assistant playback -/

/-- C2 counterexample: a reachable interleaving in which the mic-recording
flag and the assistant-playback flag are both true.  After a successful
transcription schedules the auto-submit timeout, the user may press the mic
button again inside the timeout window (every guard is false there) and the
mic acquisition resolves; the timeout then fires `form.requestSubmit()`, which
bypasses the disabled submit button, so `handleSendMessage` (whose own guard
does not check `isRecordingMic`) sends the message, and the arriving response
starts audio playback while the mic is still recording. -/
theorem mic_playback_overlap :
    (runChat initChat [.continueTopic, .startClick, .gumGranted, .startResolve true false,
      .micDown, .micGranted, .micUp, .micStop true,
      .transcribeResolve (some "hello"), .micDown, .micGranted, .autoSubmit,
      .sendResolve (some ("hi there", true, false))]).isRecordingMic = true ∧
    (runChat initChat [.continueTopic, .startClick, .gumGranted, .startResolve true false,
      .micDown, .micGranted, .micUp, .micStop true,
      .transcribeResolve (some "hello"), .micDown, .micGranted, .autoSubmit,
      .sendResolve (some ("hi there", true, false))]).isSpeaking = true := by
  constructor <;> decide

/-- C2 (amended): the press-time guard of the push-to-talk protocol holds —
pressing the mic button while the assistant is speaking is refused outright
(the handler returns leaving the state unchanged), and a press that is
accepted stops any residual playback before the microphone is requested, so
no clip is playing and `isSpeaking` is false at the instant the acquisition
starts.  The guard is only press-time: nothing rechecks it after the
asynchronous `getUserMedia`, so `isSpeaking` may be true again by the time
`isRecordingMic` turns true, and playback may also start later during the
recording (see `mic_playback_overlap`). -/
theorem micPress_refused_while_speaking (s s2 : ChatState)
    (h : s.isSpeaking = true)
    (h2 : s2.pendingMicStart = false)
    (h3 : (chatStep s2 .micDown).pendingMicStart = true) :
    chatStep s .micDown = s ∧
    (chatStep s2 .micDown).isSpeaking = false ∧
    (chatStep s2 .micDown).trackedPlaying = false := by
  refine ⟨by simp [chatStep, h], ?_, ?_⟩ <;>
  · simp only [chatStep, stopAudioFn] at h3 ⊢
    split_ifs at h3 ⊢ <;> simp_all

theorem micPress_refused_while_speaking_witness :
    (runChat initChat [.continueTopic, .startClick, .gumGranted,
      .startResolve true true]).isSpeaking = true ∧
    (runChat initChat [.continueTopic, .startClick, .gumGranted,
      .startResolve true false]).pendingMicStart = false ∧
    (chatStep (runChat initChat [.continueTopic, .startClick, .gumGranted,
      .startResolve true false]) .micDown).pendingMicStart = true ∧
    chatStep (runChat initChat [.continueTopic, .startClick, .gumGranted,
      .startResolve true true]) .micDown
      = runChat initChat [.continueTopic, .startClick, .gumGranted, .startResolve true true] ∧
    (chatStep (runChat initChat [.continueTopic, .startClick, .gumGranted,
      .startResolve true false]) .micDown).isSpeaking = false := by
  have h := micPress_refused_while_speaking
    (runChat initChat [.continueTopic, .startClick, .gumGranted, .startResolve true true])
    (runChat initChat [.continueTopic, .startClick, .gumGranted, .startResolve true false])
    (by decide) (by decide) (by decide)
  exact ⟨by decide, by decide, by decide, h.1, h.2.1⟩

/- ### C3: completion affordance -/

theorem runChat_ticks (n : Nat) (s : ChatState) (h : s.timerActive = true) :
    runChat s (List.replicate n .tick) = { s with elapsedTime := s.elapsedTime + n } := by
  induction n generalizing s with
  | zero => rfl
  | succ n ih =>
      have hstep : runChat s (List.replicate (n + 1) .tick)
          = runChat (chatStep s .tick) (List.replicate n .tick) := rfl
      have htick : chatStep s .tick = { s with elapsedTime := s.elapsedTime + 1 } := by
        simp [chatStep, h]
      rw [hstep, htick, ih _ (by simp [h])]
      simp [Nat.add_assoc, Nat.add_comm 1 n]

/-- C3: the completion affordance is rendered exactly when `elapsedSeconds >=
60` or `shouldEnd` is true; and along a session that only ticks (with
`shouldEnd` never set), the affordance is shown after `n` ticks exactly when
`n >= 60` — it becomes enabled at the tick reaching 60 and not before. -/
theorem completion_affordance (n : Nat) :
    (∀ s : ChatState, completeShown s = true ↔ (s.shouldEnd = true ∨ 60 ≤ s.elapsedTime)) ∧
    completeShown (runChat initChat
      (.continueTopic :: .startClick :: .gumGranted :: .startResolve true false ::
        List.replicate n .tick)) = decide (60 ≤ n) := by
  constructor
  · intro s
    simp [completeShown]
  · have hrun : runChat initChat
        (.continueTopic :: .startClick :: .gumGranted :: .startResolve true false ::
          List.replicate n .tick)
        = runChat (runChat initChat
            [.continueTopic, .startClick, .gumGranted, .startResolve true false])
          (List.replicate n .tick) := rfl
    rw [hrun, runChat_ticks n _ (by decide)]
    have hse : (runChat initChat
        [.continueTopic, .startClick, .gumGranted, .startResolve true false]).shouldEnd
        = false := by decide
    have hel : (runChat initChat
        [.continueTopic, .startClick, .gumGranted, .startResolve true false]).elapsedTime
        = 0 := by decide
    simp [completeShown, hse, hel]

/- ### C4: at most one active audio clip -/

/-- C4: in every reachable state of a session, no orphaned clip plays
(equivalently, `playAudio` is never invoked while a clip is still playing —
every caller stops the current clip first), at most one clip is active, and
`isSpeaking` is true exactly while the tracked clip plays — set on start and
cleared on the clip's natural end or error. -/
theorem single_active_clip (s : ChatState) (h : ChatReachable s) :
    s.orphaned = 0 ∧ activeClips s ≤ 1 ∧ s.isSpeaking = s.trackedPlaying := by
  obtain ⟨h1, h2, -, -, -, -, -, -⟩ := chatInv_reachable s h
  refine ⟨h1, ?_, h2⟩
  simp only [activeClips, h1]
  split_ifs <;> omega

theorem single_active_clip_witness :
    (runChat initChat [.continueTopic, .startClick, .gumGranted,
      .startResolve true true]).orphaned = 0 ∧
    activeClips (runChat initChat [.continueTopic, .startClick, .gumGranted,
      .startResolve true true]) ≤ 1 ∧
    (runChat initChat [.continueTopic, .startClick, .gumGranted,
      .startResolve true true]).isSpeaking
      = (runChat initChat [.continueTopic, .startClick, .gumGranted,
          .startResolve true true]).trackedPlaying :=
  single_active_clip _ ⟨_, rfl⟩

/- ### C5: completion teardown -/

/-- C5 counterexample: when the enrollment-complete call fails, the device
tracks are NOT released — `stopStream` runs only on the success path of
`handleComplete` — so "resources are released regardless of the call's
outcome" is false at this concrete run: after a failed completion the stream
tracks are still active (while the recorder and timers are indeed stopped and
a retryable error was surfaced). -/
theorem complete_failure_leaves_tracks :
    (runChat initChat [.continueTopic, .startClick, .gumGranted, .startResolve true false,
      .setInput "hi", .submit, .sendResolve (some ("ok", false, true)), .completeClick,
      .completeResolve false]).streamTracksActive = true ∧
    (runChat initChat [.continueTopic, .startClick, .gumGranted, .startResolve true false,
      .setInput "hi", .submit, .sendResolve (some ("ok", false, true)), .completeClick,
      .completeResolve false]).errorsSurfaced = 1 ∧
    (runChat initChat [.continueTopic, .startClick, .gumGranted, .startResolve true false,
      .setInput "hi", .submit, .sendResolve (some ("ok", false, true)), .completeClick,
      .completeResolve false]).mediaRecording = false ∧
    (runChat initChat [.continueTopic, .startClick, .gumGranted, .startResolve true false,
      .setInput "hi", .submit, .sendResolve (some ("ok", false, true)), .completeClick,
      .completeResolve false]).timerActive = false := by
  refine ⟨by decide, by decide, by decide, by decide⟩

/-- C5 (amended): completing enrollment stops the recorder and all timers
before the enrollment-complete call, regardless of its outcome; the device
tracks are released and the userId handed to the host only when the call
succeeds (transition to Terminated); on failure a retryable error is surfaced
with the recorder and timers stopped but the device tracks still active. -/
theorem complete_releases (s s2 : ChatState)
    (hstep : s.step = StepPhase.conversation) (hshown : completeShown s = true)
    (hnc : s.isCompleting = false) (h2 : s2.completeInFlight = true) :
    ((chatStep s .completeClick).mediaRecording = false ∧
     (chatStep s .completeClick).chunkIntervalActive = false ∧
     (chatStep s .completeClick).timerActive = false ∧
     (chatStep s .completeClick).isCompleting = true ∧
     (chatStep s .completeClick).streamTracksActive = s.streamTracksActive) ∧
    ((chatStep s2 (.completeResolve true)).streamTracksActive = false ∧
     (chatStep s2 (.completeResolve true)).step = StepPhase.terminated ∧
     (chatStep s2 (.completeResolve true)).handedOffUser = s2.userId) ∧
    ((chatStep s2 (.completeResolve false)).errorsSurfaced = s2.errorsSurfaced + 1 ∧
     (chatStep s2 (.completeResolve false)).isCompleting = false ∧
     (chatStep s2 (.completeResolve false)).streamTracksActive = s2.streamTracksActive ∧
     (chatStep s2 (.completeResolve false)).step = s2.step) := by
  refine ⟨?_, ?_, ?_⟩ <;>
    simp [chatStep, hstep, hshown, hnc, h2, stopMicRecordingFn, stopAudioFn,
      stopRecordingFn, clearTimerFn, stopStreamFn] <;>
    split_ifs <;> simp

theorem complete_releases_witness :
    (runChat initChat [.continueTopic, .startClick, .gumGranted, .startResolve true false,
      .setInput "hi", .submit, .sendResolve (some ("ok", false, true))]).step = StepPhase.conversation ∧
    completeShown (runChat initChat [.continueTopic, .startClick, .gumGranted, .startResolve true false,
      .setInput "hi", .submit, .sendResolve (some ("ok", false, true))]) = true ∧
    (runChat initChat [.continueTopic, .startClick, .gumGranted, .startResolve true false,
      .setInput "hi", .submit, .sendResolve (some ("ok", false, true))]).isCompleting = false ∧
    (chatStep (runChat initChat [.continueTopic, .startClick, .gumGranted, .startResolve true false,
      .setInput "hi", .submit, .sendResolve (some ("ok", false, true))]) .completeClick).completeInFlight = true ∧
    (chatStep (runChat initChat [.continueTopic, .startClick, .gumGranted, .startResolve true false,
      .setInput "hi", .submit, .sendResolve (some ("ok", false, true))]) .completeClick).mediaRecording = false ∧
    (chatStep (chatStep (runChat initChat [.continueTopic, .startClick, .gumGranted, .startResolve true false,
      .setInput "hi", .submit, .sendResolve (some ("ok", false, true))]) .completeClick)
      (.completeResolve false)).errorsSurfaced
      = (chatStep (runChat initChat [.continueTopic, .startClick, .gumGranted, .startResolve true false,
        .setInput "hi", .submit, .sendResolve (some ("ok", false, true))]) .completeClick).errorsSurfaced + 1 := by
  have h := complete_releases
    (runChat initChat [.continueTopic, .startClick, .gumGranted, .startResolve true false,
      .setInput "hi", .submit, .sendResolve (some ("ok", false, true))])
    (chatStep (runChat initChat [.continueTopic, .startClick, .gumGranted, .startResolve true false,
      .setInput "hi", .submit, .sendResolve (some ("ok", false, true))]) .completeClick)
    (by decide) (by decide) (by decide) (by decide)
  exact ⟨by decide, by decide, by decide, by decide, h.1.1, h.2.2.1⟩

/- ### C6: cancel teardown -/

/-- C6 (code bug): cancel does NOT leave zero timers and zero tracks from
every state — cancelling while `handleStart` is in flight leaks both.  In this
concrete run the user clicks Start (acquisition in flight), cancels from the
permissions screen (the component unmounts, its cleanup effects run with
nothing yet to release), and then the continuation of `handleStart` resolves
anyway: `getUserMedia` acquires device tracks whose discarded `setStream`
means no cleanup will ever stop them, and `startEnrollment`'s continuation
schedules the elapsed-time interval (VideoChat.jsx lines 293-295) that nothing
ever clears.  After cancel the session is terminated yet one timer remains
scheduled and one device-track group remains active. -/
theorem cancel_leaves_start_leaks :
    (runChat initChat [.continueTopic, .startClick, .cancel, .gumGranted,
      .startResolve true false]).step = StepPhase.terminated ∧
    timersScheduled (runChat initChat [.continueTopic, .startClick, .cancel, .gumGranted,
      .startResolve true false]) = 1 ∧
    activeTracks (runChat initChat [.continueTopic, .startClick, .cancel, .gumGranted,
      .startResolve true false]) = 1 := by
  refine ⟨by decide, by decide, by decide⟩

/- ### C7: serialized message submission -/

/-- C7: message submission is serialized — in every reachable state at most
one `sendMessage` request is outstanding, and while one is in flight
(`isTyping`/awaitingResponse true) any new submission, whether through the
form controls or through the transcription auto-submit, appends no turn and
issues no request. -/
theorem sendMessage_serialized (s : ChatState) (h : ChatReachable s) :
    s.outstanding ≤ 1 ∧
    (s.isTyping = true →
      (chatStep s .submit).messages = s.messages ∧
      (chatStep s .submit).requestsIssued = s.requestsIssued ∧
      (chatStep s .autoSubmit).messages = s.messages ∧
      (chatStep s .autoSubmit).requestsIssued = s.requestsIssued) := by
  obtain ⟨-, -, h3, -, -, -, -, -⟩ := chatInv_reachable s h
  constructor
  · rw [h3]; split_ifs <;> omega
  · intro hty
    refine ⟨?_, ?_, ?_, ?_⟩ <;>
      simp [chatStep, handleSendMessageFn, hty] <;> split_ifs <;> simp

theorem sendMessage_serialized_witness :
    (runChat initChat [.continueTopic, .startClick, .gumGranted, .startResolve true false, .setInput "hi", .submit]).isTyping = true ∧
    (runChat initChat [.continueTopic, .startClick, .gumGranted, .startResolve true false, .setInput "hi", .submit]).outstanding ≤ 1 ∧
    (chatStep (runChat initChat [.continueTopic, .startClick, .gumGranted, .startResolve true false, .setInput "hi", .submit])
        .submit).messages
      = (runChat initChat [.continueTopic, .startClick, .gumGranted, .startResolve true false, .setInput "hi", .submit]).messages := by
  have h := sendMessage_serialized
    (runChat initChat [.continueTopic, .startClick, .gumGranted, .startResolve true false, .setInput "hi", .submit]) ⟨_, rfl⟩
  exact ⟨by decide, h.1, (h.2 (by decide)).1⟩

/- ### C8: send-failure fallback -/

/-- C8: when the conversation-message call fails, the fixed fallback assistant
turn is appended, `awaitingResponse` (`isTyping`) is cleared, and the session
stays in its current (Active) step with the session id and the previously
appended optimistic user turn retained (the transcript is only extended). -/
theorem send_failure_fallback (s : ChatState) (h : s.isTyping = true) :
    (chatStep s (.sendResolve none)).messages = s.messages ++ [⟨.assistant, fallbackText⟩] ∧
    (chatStep s (.sendResolve none)).isTyping = false ∧
    (chatStep s (.sendResolve none)).step = s.step ∧
    (chatStep s (.sendResolve none)).sessionId = s.sessionId ∧
    (chatStep s (.sendResolve none)).shouldEnd = s.shouldEnd := by
  simp [chatStep, h]

theorem send_failure_fallback_witness :
    (runChat initChat [.continueTopic, .startClick, .gumGranted, .startResolve true false, .setInput "hi", .submit]).isTyping = true ∧
    (chatStep (runChat initChat [.continueTopic, .startClick, .gumGranted, .startResolve true false, .setInput "hi", .submit])
        (.sendResolve none)).messages
      = (runChat initChat [.continueTopic, .startClick, .gumGranted, .startResolve true false, .setInput "hi", .submit]).messages
          ++ [⟨.assistant, fallbackText⟩] ∧
    (chatStep (runChat initChat [.continueTopic, .startClick, .gumGranted, .startResolve true false, .setInput "hi", .submit])
        (.sendResolve none)).isTyping = false := by
  have h := send_failure_fallback
    (runChat initChat [.continueTopic, .startClick, .gumGranted, .startResolve true false, .setInput "hi", .submit]) (by decide)
  exact ⟨by decide, h.1, h.2.1⟩

/- ### C9: chunk-upload counter -/

theorem chunksProcessed_mono (s : ChatState) (e : ChatEvent) :
    s.chunksProcessed ≤ (chatStep s e).chunksProcessed := by
  cases e with
  | sendResolve resp =>
      rcases resp with _ | ⟨text, hasAudio, se⟩ <;>
        simp [chatStep, playAudioFn] <;> split_ifs <;> simp
  | transcribeResolve text =>
      rcases text with _ | t <;> simp [chatStep] <;> split_ifs <;> simp
  | _ =>
      simp [chatStep, handleSendMessageFn, playAudioFn, stopAudioFn,
        stopMicRecordingFn, stopRecordingFn, stopStreamFn, clearTimerFn,
        handleCancelFn, unmountCleanupFn] <;>
      split_ifs <;> simp

/-- C9: a failed chunk upload (network/server error or `accepted = false`)
leaves the accepted-chunk counter unchanged, surfaces no error, and is never
retried (exactly one upload attempt per chunk); an accepted upload increments
the counter by exactly one; the counter never decreases under any event; and
the capture/flush machinery is untouched by the upload outcome. -/
theorem chunk_upload_counter (s : ChatState) (o : ChunkOutcome)
    (h : s.sessionId.isSome = true) :
    (chatStep s (.chunkReady .accepted)).chunksProcessed = s.chunksProcessed + 1 ∧
    (o ≠ .accepted → (chatStep s (.chunkReady o)).chunksProcessed = s.chunksProcessed) ∧
    (chatStep s (.chunkReady o)).errorsSurfaced = s.errorsSurfaced ∧
    (chatStep s (.chunkReady o)).uploadAttempts = s.uploadAttempts + 1 ∧
    (chatStep s (.chunkReady o)).chunkIntervalActive = s.chunkIntervalActive ∧
    (chatStep s (.chunkReady o)).mediaRecording = s.mediaRecording ∧
    ∀ e : ChatEvent, s.chunksProcessed ≤ (chatStep s e).chunksProcessed := by
  refine ⟨by simp [chatStep, h], ?_, ?_, ?_, ?_, ?_, fun e => chunksProcessed_mono s e⟩ <;>
  · simp [chatStep, h]
    split_ifs <;> simp_all

theorem chunk_upload_counter_witness :
    (runChat initChat [.continueTopic, .startClick, .gumGranted, .startResolve true false]).sessionId.isSome = true ∧
    (chatStep (runChat initChat [.continueTopic, .startClick, .gumGranted, .startResolve true false])
        (.chunkReady .netError)).chunksProcessed
      = (runChat initChat [.continueTopic, .startClick, .gumGranted, .startResolve true false]).chunksProcessed ∧
    (chatStep (runChat initChat [.continueTopic, .startClick, .gumGranted, .startResolve true false])
        (.chunkReady .accepted)).chunksProcessed
      = (runChat initChat [.continueTopic, .startClick, .gumGranted, .startResolve true false]).chunksProcessed + 1 := by
  have h := chunk_upload_counter (runChat initChat [.continueTopic, .startClick, .gumGranted, .startResolve true false])
    .netError (by decide)
  exact ⟨by decide, h.2.1 (by decide), h.1⟩

end IdentityShield
